import Mathlib

/-!
Shallow embedding of the TRTS (Transformative Reciprocal Triadic Structure)
engine of the `rigbyspace/emergance` repository.

The embedding follows the sources:
* `src/unnamed/part_003` — the pure C CLI engine with a raw, never-normalized
  rational type over `int64_t` (`r_add`, `r_mul`, `r_div`).
* `src/unnamed/part_000` — the FIAT_LUX C++ engine (`TRTS_Engine`): boost
  rationals, unreduced shadow numerators, the 11-microtick state machine
  (`process_microtick`), positional koppa-mode override (`update_koppa`),
  propagation engines (`apply_propagation_engine`), and `psi_transform`.
  Its bundled header defines `Rational = boost::rational<cpp_int>`, which
  normalizes (GCD-reduces) on every construction and operation.
* `src/C++/trts.h` — the deterministic Miller-Rabin oracle
  (`is_miller_rabin_prime`) with fixed witness bases 2..29.

C++ `int` counters (`rho`, `microtick`, `step`) are modeled as `Nat`
(they only ever hold small non-negative values along every reachable path);
`cpp_int` is modeled as `Int`; `int64_t` arithmetic wraps modulo `2 ^ 64`.
Boost exceptions (`bad_rational`) are modeled with explicit result values that
carry the state as mutated up to the throw point, mirroring how a C++
exception leaves the engine object partially updated.
-/

namespace TRTS

/-- Two's-complement wrap of a signed 64-bit value. `src/unnamed/part_003`
stores rational components in `int64_t`, so each C arithmetic operation
wraps modulo `2 ^ 64`. -/
def w64 (x : Int) : Int := (x + 2 ^ 63) % 2 ^ 64 - 2 ^ 63

/-- The rational pair of `src/unnamed/part_003` (`struct Rational`,
`int64_t num, den`), never normalized. -/
structure CRat where
  num : Int
  den : Int
deriving DecidableEq

/-- `r_add` of part_003: cross-multiplied addition with no GCD step. -/
def r_add (a b : CRat) : CRat :=
  ⟨w64 (w64 (a.num * b.den) + w64 (b.num * a.den)), w64 (a.den * b.den)⟩

/-- `r_mul` of part_003: componentwise product, no GCD step. -/
def r_mul (a b : CRat) : CRat :=
  ⟨w64 (a.num * b.num), w64 (a.den * b.den)⟩

/-- `r_div` of part_003: cross multiplication, no GCD step, no zero check. -/
def r_div (a b : CRat) : CRat :=
  ⟨w64 (a.num * b.den), w64 (a.den * b.num)⟩

/-- The value held by `boost::rational<cpp_int>` — the `Rational` of
part_000 and trts.h. Boost maintains the invariant `den > 0` and
`gcd (natAbs num) den = 1`, renormalizing after every operation. -/
structure BRat where
  num : Int
  den : Int
deriving DecidableEq

/-- Boost rational normalization: divide through by the GCD and keep the
denominator positive (`boost::rational::normalize`). The `g = 0` case
(`0/0`) cannot arise from boost-constructed values and is mapped to `0/1`. -/
def bnorm (n d : Int) : BRat :=
  let g : Int := Int.gcd n d
  if g = 0 then ⟨0, 1⟩
  else if d / g < 0 then ⟨-(n / g), -(d / g)⟩ else ⟨n / g, d / g⟩

/-- Boost rational addition (normalized result). -/
def badd (a b : BRat) : BRat := bnorm (a.num * b.den + b.num * a.den) (a.den * b.den)

/-- Boost rational subtraction (normalized result). -/
def bsub (a b : BRat) : BRat := bnorm (a.num * b.den - b.num * a.den) (a.den * b.den)

/-- Boost rational multiplication (normalized result). -/
def bmul (a b : BRat) : BRat := bnorm (a.num * b.num) (a.den * b.den)

/-- Value of boost rational division, defined whenever the divisor numerator
is non-zero. -/
def bdivV (a b : BRat) : BRat := bnorm (a.num * b.den) (a.den * b.num)

/-- Boost throws `bad_rational` on division by a rational with zero numerator;
the spec names this failure `DivideByZero`. -/
inductive RatError
  | bad_rational
deriving DecidableEq

/-- Boost rational division: fails with `bad_rational` when the divisor
numerator is 0, otherwise returns the normalized quotient. -/
def bdiv (a b : BRat) : Except RatError BRat :=
  if b.num = 0 then .error .bad_rational else .ok (bdivV a b)

/-- Psi modes of part_000 (`enum PsiMode`): Forced, Rho, Dual, Critical. -/
inductive PsiMode
  | PSI_F
  | PSI_R
  | PSI_D
  | PSI_C
deriving DecidableEq

/-- Kappa modes of part_000 (`enum KappaMode`): Accumulate, Dump, Ratio-Feed. -/
inductive KappaMode
  | KAPPA_A
  | KAPPA_D
  | KAPPA_F
deriving DecidableEq

/-- Engine types of part_000 (`enum EngineType`): Additive, Multiplicative,
Rotational, Quiet-additive. -/
inductive EngineType
  | ENG_A
  | ENG_M
  | ENG_R
  | ENG_Q
deriving DecidableEq

/-- The full mutable state of `TRTS_Engine` in part_000, including the
policy selectors stored in the object at construction. -/
structure EState where
  upsilon : BRat
  beta : BRat
  koppa : BRat
  upsilon_num_unreduced : Int
  beta_num_unreduced : Int
  rho : Nat
  microtick : Nat
  step : Nat
  psi_mode : PsiMode
  kappa_mode_default : KappaMode
  engine_mode : EngineType
deriving DecidableEq

/-- Result of a (possibly throwing) engine member function: `ok` is normal
return, `err` is a C++ exception escaping with the object in the state it
had at the throw point (partial mutations included). -/
inductive TickResult
  | ok (s : EState)
  | err (e : RatError) (s : EState)
deriving DecidableEq

/-- The engine state after a call, whether it returned or threw. -/
def TickResult.state : TickResult → EState
  | .ok s => s
  | .err _ s => s

/-- True when the call returned normally. -/
def TickResult.isOk : TickResult → Bool
  | .ok _ => true
  | .err _ _ => false

/-- Apply a state transformation uniformly to either outcome. -/
def TickResult.mapState (f : EState → EState) : TickResult → TickResult
  | .ok s => .ok (f s)
  | .err e s => .err e (f s)

/-- Sequence two engine phases: a C++ exception in the first phase skips the
second and escapes with the first phase's (possibly partially mutated)
state. -/
def TickResult.bind : TickResult → (EState → TickResult) → TickResult
  | .ok s, f => f s
  | .err e s, _ => .err e s

/-- The `TRTS_Engine` constructor of part_000 (lines 66-68): counters zeroed,
the three tracked rationals set to `Rational(1) = 1/1`; the shadow numerator
fields are default-constructed `cpp_int`s, hence 0. -/
def mkEngine (psi : PsiMode) (kappa : KappaMode) (engine : EngineType) : EState :=
  { upsilon := ⟨1, 1⟩, beta := ⟨1, 1⟩, koppa := ⟨1, 1⟩
    upsilon_num_unreduced := 0, beta_num_unreduced := 0
    rho := 0, microtick := 0, step := 0
    psi_mode := psi, kappa_mode_default := kappa, engine_mode := engine }

/-- `TRTS_Engine::initialize_state` of part_000 (lines 70-78): sets upsilon
and beta from the seeds, koppa to `1/1`, and the unreduced shadow numerators
from the seed numerators. It touches nothing else. -/
def initialize_state (s : EState) (u_seed b_seed : BRat) : EState :=
  { s with upsilon := u_seed, beta := b_seed, koppa := ⟨1, 1⟩
           upsilon_num_unreduced := u_seed.num
           beta_num_unreduced := b_seed.num }

/-- `is_miller_rabin_prime` as defined in part_000 (lines 17-20): the
"final pragmatic axiom" stub that unconditionally returns true. -/
def p0_is_miller_rabin_prime (_ : Int) : Bool := true

/-- `TRTS_Engine::is_prime_trigger` of part_000 (lines 82-86): take the
unreduced upsilon shadow numerator, replace it by its absolute value, and
ask the linked `is_miller_rabin_prime` (here a parameter, since different
translation units of the repository bind different oracles). -/
def is_prime_trigger (oracle : Int → Bool) (s : EState) : Bool :=
  oracle (if s.upsilon_num_unreduced < 0 then -s.upsilon_num_unreduced
          else s.upsilon_num_unreduced)

/-- `TRTS_Engine::update_koppa` of part_000 (lines 89-108): no-op for a zero
trigger; otherwise the local effective mode is the configured default
overridden by microtick position (7 forces Ratio-Feed, 10 forces Dump,
1 and 4 force Accumulate), and koppa is updated under that mode. The
Ratio-Feed reset of a zero koppa happens before the division, and boost
`operator==(int)` compares the normalized representation to `0/1`. -/
def update_koppa (s : EState) (trigger : Nat) : TickResult :=
  if trigger = 0 then .ok s
  else
    let current_kappa_mode :=
      if s.microtick = 7 then KappaMode.KAPPA_F
      else if s.microtick = 10 then KappaMode.KAPPA_D
      else if s.microtick = 1 ∨ s.microtick = 4 then KappaMode.KAPPA_A
      else s.kappa_mode_default
    match current_kappa_mode with
    | .KAPPA_F =>
        let k1 := if s.koppa = (⟨0, 1⟩ : BRat) then (⟨1, 1⟩ : BRat) else s.koppa
        let s1 := { s with koppa := k1 }
        match bdiv s1.upsilon s1.beta with
        | .error e => .err e s1
        | .ok q => .ok { s1 with koppa := bmul s1.koppa q }
    | .KAPPA_A => .ok { s with koppa := badd s.koppa (bsub s.upsilon s.beta) }
    | .KAPPA_D =>
        match bdiv s.upsilon s.beta with
        | .error e => .err e s
        | .ok q => .ok { s with koppa := q }

/-- The positional koppa-mode override of part_000 (`update_koppa`,
lines 94-97), factored as the pure function of (microtick, configured mode)
that the spec's design notes call for: microtick 7 forces Ratio-Feed,
microtick 10 forces Dump, microticks 1 and 4 force Accumulate, any other
microtick keeps the configured default. -/
def effective_kappa_mode (microtick : Nat) (configured : KappaMode) : KappaMode :=
  if microtick = 7 then KappaMode.KAPPA_F
  else if microtick = 10 then KappaMode.KAPPA_D
  else if microtick = 1 ∨ microtick = 4 then KappaMode.KAPPA_A
  else configured

/-- The mode-execution half of part_000's `update_koppa` (lines 100-107),
run under an explicitly given mode. -/
def run_kappa_mode (mode : KappaMode) (s : EState) : TickResult :=
  match mode with
  | .KAPPA_F =>
      let k1 := if s.koppa = (⟨0, 1⟩ : BRat) then (⟨1, 1⟩ : BRat) else s.koppa
      let s1 := { s with koppa := k1 }
      match bdiv s1.upsilon s1.beta with
      | .error e => .err e s1
      | .ok q => .ok { s1 with koppa := bmul s1.koppa q }
  | .KAPPA_A => .ok { s with koppa := badd s.koppa (bsub s.upsilon s.beta) }
  | .KAPPA_D =>
      match bdiv s.upsilon s.beta with
      | .error e => .err e s
      | .ok q => .ok { s with koppa := q }

/-- `TRTS_Engine::apply_propagation_engine` of part_000 (lines 111-141):
diff = upsilon - beta, delta = diff / 11 (the divisor `Rational(11,1)` has
non-zero numerator, so this division never throws); one of the four engines
updates upsilon and beta; the Quiet engine additionally advances the
unreduced shadow numerators by delta's (normalized) numerator. -/
def apply_propagation_engine (s : EState) : EState :=
  let diff := bsub s.upsilon s.beta
  let eleven : BRat := ⟨11, 1⟩
  let delta := bdivV diff eleven
  let s1 :=
    match s.engine_mode with
    | .ENG_Q => { s with upsilon := badd s.upsilon delta, beta := bsub s.beta delta }
    | .ENG_A => { s with upsilon := badd s.upsilon diff, beta := bsub s.beta diff }
    | .ENG_M => { s with upsilon := badd s.upsilon (bmul s.upsilon delta)
                         beta := bsub s.beta (bmul s.beta delta) }
    | .ENG_R => { s with upsilon := s.beta, beta := s.upsilon }
  if s.engine_mode = .ENG_Q then
    { s1 with upsilon_num_unreduced := s1.upsilon_num_unreduced + delta.num
              beta_num_unreduced := s1.beta_num_unreduced - delta.num }
  else s1

/-- `TRTS_Engine::psi_transform` of part_000 (lines 143-148): dual-reciprocal
form. `upsilon = koppa / beta` is assigned first; if the second division
`temp / koppa` then throws, the exception escapes with upsilon already
overwritten. -/
def psi_transform (s : EState) : TickResult :=
  let temp := s.upsilon
  match bdiv s.koppa s.beta with
  | .error e => .err e s
  | .ok q1 =>
      let s1 := { s with upsilon := q1 }
      match bdiv temp s1.koppa with
      | .error e => .err e s1
      | .ok q2 => .ok { s1 with beta := q2 }

/-- The E-role block of part_000's `process_microtick` (lines 158-167):
at an emission microtick, set rho to 1 when the prime trigger fires, and
call `update_koppa(rho)` when rho is positive. -/
def emission_phase (oracle : Int → Bool) (s : EState) : TickResult :=
  if s.microtick = 1 ∨ s.microtick = 4 ∨ s.microtick = 7 ∨ s.microtick = 10 then
    let s1 := if is_prime_trigger oracle s then { s with rho := 1 } else s
    if 0 < s1.rho then update_koppa s1 s1.rho else .ok s1
  else .ok s

/-- The M-role block of part_000's `process_microtick` (lines 169-173):
run the propagation engine at microticks 3, 6, 9. -/
def propagation_phase (s : EState) : TickResult :=
  if s.microtick = 3 ∨ s.microtick = 6 ∨ s.microtick = 9 then
    .ok (apply_propagation_engine s)
  else .ok s

/-- The R-role block of part_000's `process_microtick` (lines 175-195):
at microticks 2, 5, 8, 11 decide `should_transform` from the configured psi
mode (Forced at 11, Rho on a positive trigger, Dual on either, Critical on
a koppa whose raw numerator and denominator fields differ) and apply the
psi transform when set. -/
def transformation_phase (s : EState) : TickResult :=
  if s.microtick = 2 ∨ s.microtick = 5 ∨ s.microtick = 8 ∨ s.microtick = 11 then
    let st0 := false
    let st1 := if s.psi_mode = PsiMode.PSI_F ∧ s.microtick = 11 then true else st0
    let st2 := if s.psi_mode = PsiMode.PSI_R ∧ 0 < s.rho then true else st1
    let st3 := if s.psi_mode = PsiMode.PSI_D ∧ (s.microtick = 11 ∨ 0 < s.rho) then true
               else st2
    let st4 := if s.psi_mode = PsiMode.PSI_C ∧ s.koppa.num ≠ s.koppa.den then true
               else st3
    if st4 then psi_transform s else .ok s
  else .ok s

/-- `TRTS_Engine::process_microtick` of part_000 (lines 152-196):
advance the microtick counter through `(microtick % 11) + 1`, overwrite
`step` with the role index `(microtick - 1) / 3`, reset rho, then run the
emission (1,4,7,10), propagation (3,6,9) and transformation (2,5,8,11)
role blocks in order — the three blocks test the member microtick, which
none of them modifies; an exception from the koppa update or the psi
transform aborts the call with the state as mutated so far. -/
def process_microtick (oracle : Int → Bool) (s0 : EState) : TickResult :=
  let m := s0.microtick % 11 + 1
  let s := { s0 with microtick := m, step := (m - 1) / 3, rho := 0 }
  TickResult.bind (TickResult.bind (emission_phase oracle s) propagation_phase)
    transformation_phase

/-- `TRTS_Engine::execute_tick` of part_000 (lines 198-202): run
`process_microtick` the given number of times; a C++ exception aborts the
remaining iterations. -/
def execute_tick (oracle : Int → Bool) : Nat → EState → TickResult
  | 0, s => .ok s
  | n + 1, s =>
      match process_microtick oracle s with
      | .ok s1 => execute_tick oracle n s1
      | .err e s1 => .err e s1

/-- Modular exponentiation `boost::multiprecision::powm` as used by the
Miller-Rabin test of `src/C++/trts.h`. -/
def powm (a d n : Nat) : Nat := a ^ d % n

/-- The `while (d % 2 == 0) { d /= 2; s++ }` loop of trts.h, peeling factors
of two; returns `(s, d)`. Structured with fuel equal to the starting value,
which bounds the number of halvings. -/
def evenSplitAux : Nat → Nat → Nat × Nat
  | 0, d => (0, d)
  | fuel + 1, d =>
      if d % 2 = 0 ∧ d ≠ 0 then
        let p := evenSplitAux fuel (d / 2)
        (p.1 + 1, p.2)
      else (0, d)

/-- Factor a number as `2 ^ s * d` with `d` odd (for positive input). -/
def evenSplit (d : Nat) : Nat × Nat := evenSplitAux d d

/-- The inner repeated-squaring loop of trts.h (`for r = 1 .. s-1`): squares
`x` modulo `n` up to `k` times and reports whether it ever hits `n1`. -/
def mrSquares (n n1 : Nat) : Nat → Nat → Bool
  | _, 0 => false
  | x, k + 1 =>
      let x2 := x * x % n
      if x2 = n1 then true else mrSquares n n1 x2 k

/-- The witness-base loop of trts.h: bases at least `abs_n` stop the scan
(`break` falls through to `return true`); a base that proves compositeness
returns false. -/
def mrBases (abs_n n1 d s : Nat) : List Nat → Bool
  | [] => true
  | a :: rest =>
      if abs_n ≤ a then true
      else
        let x := powm a d abs_n
        if x = 1 ∨ x = n1 then mrBases abs_n n1 d s rest
        else if mrSquares abs_n n1 x (s - 1) then mrBases abs_n n1 d s rest
        else false

/-- `TRTS_Engine::is_miller_rabin_prime` of `src/C++/trts.h` (lines 28-66):
operates on the absolute value, answers false for values at most 1, true
for 2 and 3, false for even values, and otherwise runs deterministic
Miller-Rabin with the fixed witness bases 2,3,5,7,11,13,17,19,23,29. -/
def is_miller_rabin_prime (n : Int) : Bool :=
  let abs_n := n.natAbs
  if abs_n ≤ 1 then false
  else if abs_n ≤ 3 then true
  else if abs_n % 2 = 0 then false
  else
    let n_minus_1 := abs_n - 1
    let sd := evenSplit n_minus_1
    mrBases abs_n n_minus_1 sd.2 sd.1 [2, 3, 5, 7, 11, 13, 17, 19, 23, 29]

/-- Freshly constructed engine (Rho psi mode, Accumulate default, Rotational
engine) used to run eleven part_000 microticks concretely. -/
def c3_start : EState := mkEngine .PSI_R .KAPPA_A .ENG_R

/-- Freshly constructed engine used to exercise `initialize_state`. -/
def c5_pre : EState := mkEngine .PSI_D .KAPPA_A .ENG_Q

/-- Concrete state at emission microtick 7 with the default seeds, used to
instantiate the effective-koppa-mode theorem. -/
def c6_w : EState :=
  { mkEngine .PSI_D .KAPPA_A .ENG_Q with
      microtick := 7, upsilon := ⟨19, 7⟩, beta := ⟨89, 11⟩ }

/-- Concrete state at emission microtick 10 (forced Dump) whose beta
numerator is zero. -/
def c7_w0 : EState :=
  { mkEngine .PSI_D .KAPPA_A .ENG_Q with
      microtick := 10, upsilon := ⟨19, 7⟩, beta := ⟨0, 1⟩, koppa := ⟨3, 5⟩ }

/-- Concrete state at emission microtick 10 (forced Dump) whose beta
numerator is non-zero. -/
def c7_w1 : EState :=
  { mkEngine .PSI_D .KAPPA_A .ENG_Q with
      microtick := 10, upsilon := ⟨19, 7⟩, beta := ⟨89, 11⟩, koppa := ⟨3, 5⟩ }

/-- Concrete state with a zero-valued koppa and a non-zero beta: the psi
transform on it throws only after overwriting upsilon. -/
def c8_ce : EState :=
  { mkEngine .PSI_D .KAPPA_A .ENG_Q with
      upsilon := ⟨2, 1⟩, beta := ⟨1, 1⟩, koppa := ⟨0, 1⟩ }

/-- Concrete state at emission microtick 7 (forced Ratio-Feed) with zero
koppa and zero beta numerator: the koppa update resets koppa to 1/1 and
then throws. -/
def c8_w0 : EState :=
  { mkEngine .PSI_D .KAPPA_A .ENG_Q with
      microtick := 7, upsilon := ⟨2, 1⟩, beta := ⟨0, 1⟩, koppa := ⟨0, 1⟩ }

/-- Concrete Rotational-engine state with distinct upsilon and beta. -/
def c9_w : EState :=
  { mkEngine .PSI_F .KAPPA_A .ENG_R with upsilon := ⟨19, 7⟩, beta := ⟨89, 11⟩ }

/-- `update_koppa` is literally the positional override composed with the
mode executor: a zero trigger is a no-op, otherwise the mode run is
`run_kappa_mode` of the pure `effective_kappa_mode`. -/
theorem update_koppa_run_eq (s : EState) (t : Nat) :
    update_koppa s t =
      if t = 0 then .ok s
      else run_kappa_mode (effective_kappa_mode s.microtick s.kappa_mode_default) s := rfl

/-- A koppa-mode run can only change the koppa field, whether it returns
or throws. -/
theorem run_kappa_mode_koppa_only (mode : KappaMode) (s : EState) :
    ∃ k, (run_kappa_mode mode s).state = { s with koppa := k } := by
  cases mode <;> simp only [run_kappa_mode] <;> repeat' split
  all_goals exact ⟨_, rfl⟩

/-- `update_koppa` can only change the koppa field. -/
theorem update_koppa_koppa_only (s : EState) (t : Nat) :
    ∃ k, (update_koppa s t).state = { s with koppa := k } := by
  rw [update_koppa_run_eq]
  split
  · exact ⟨s.koppa, rfl⟩
  · exact run_kappa_mode_koppa_only _ s

/-- The psi transform can only change upsilon and beta, whether it returns
or throws. -/
theorem psi_transform_ub_only (s : EState) :
    ∃ u b, (psi_transform s).state = { s with upsilon := u, beta := b } := by
  simp only [psi_transform]
  repeat' split
  all_goals exact ⟨_, _, rfl⟩

/-- The propagation engine can only change upsilon, beta and the two shadow
numerators. -/
theorem apply_propagation_engine_ub_only (s : EState) :
    ∃ u b un bn, apply_propagation_engine s =
      { s with upsilon := u, beta := b,
               upsilon_num_unreduced := un, beta_num_unreduced := bn } := by
  simp only [apply_propagation_engine]
  repeat' split
  all_goals exact ⟨_, _, _, _, rfl⟩

/-- The emission phase can only change rho and koppa. -/
theorem emission_phase_shape (oracle : Int → Bool) (s : EState) :
    ∃ r k, (emission_phase oracle s).state = { s with rho := r, koppa := k } := by
  simp only [emission_phase]
  split
  · split
    · simp only [Nat.zero_lt_one, if_true]
      obtain ⟨k, hk⟩ := update_koppa_koppa_only { s with rho := 1 } 1
      exact ⟨1, k, hk⟩
    · split
      · obtain ⟨k, hk⟩ := update_koppa_koppa_only s s.rho
        exact ⟨s.rho, k, hk⟩
      · exact ⟨s.rho, s.koppa, rfl⟩
  · exact ⟨s.rho, s.koppa, rfl⟩

/-- The propagation phase can only change upsilon, beta and the shadow
numerators. -/
theorem propagation_phase_shape (s : EState) :
    ∃ u b un bn, (propagation_phase s).state =
      { s with upsilon := u, beta := b,
               upsilon_num_unreduced := un, beta_num_unreduced := bn } := by
  simp only [propagation_phase]
  split
  · exact apply_propagation_engine_ub_only s
  · exact ⟨_, _, _, _, rfl⟩

/-- The transformation phase can only change upsilon and beta. -/
theorem transformation_phase_shape (s : EState) :
    ∃ u b, (transformation_phase s).state = { s with upsilon := u, beta := b } := by
  simp only [transformation_phase]
  repeat' split
  all_goals first
    | exact psi_transform_ub_only _
    | exact ⟨_, _, rfl⟩

/-- A state projection that every continuation preserves is preserved by
sequencing. -/
theorem bind_state_proj {α : Sort _} (P : EState → α) (r : TickResult)
    (f : EState → TickResult) (h : ∀ s, P ((f s).state) = P s) :
    P ((TickResult.bind r f).state) = P r.state := by
  cases r with
  | ok s => exact h s
  | err e s => rfl

/-- Exact rho behavior of the emission phase from a state whose rho was
reset: rho 1 exactly at an emission microtick whose prime trigger fires,
otherwise rho stays 0. -/
theorem emission_phase_rho (oracle : Int → Bool) (s : EState) (h : s.rho = 0) :
    (emission_phase oracle s).state.rho =
      if (s.microtick = 1 ∨ s.microtick = 4 ∨ s.microtick = 7 ∨ s.microtick = 10) ∧
         is_prime_trigger oracle s = true then 1 else 0 := by
  simp only [emission_phase]
  split
  case isTrue hc =>
    cases htrig : is_prime_trigger oracle s
    · simp [htrig, h, TickResult.state]
    · obtain ⟨k, hk⟩ := update_koppa_koppa_only { s with rho := 1 } 1
      simp only [htrig, if_true, hc, and_self]
      norm_num
      rw [hk]
  case isFalse hc => simp [TickResult.state, h, hc]

/-- A koppa-mode run commutes with overwriting the stored default mode,
which it never reads. -/
theorem run_kappa_mode_kd_comm (mode : KappaMode) (k : KappaMode) (s : EState) :
    run_kappa_mode mode { s with kappa_mode_default := k } =
      (run_kappa_mode mode s).mapState
        (fun s2 => { s2 with kappa_mode_default := k }) := by
  cases mode <;> simp only [run_kappa_mode] <;> repeat' split
  all_goals simp_all [TickResult.mapState]

/-- At an emission microtick the positional override decides the mode, so
`update_koppa` commutes with overwriting the stored default mode. -/
theorem update_koppa_kd_comm (s : EState) (t : Nat) (k : KappaMode)
    (h : s.microtick = 1 ∨ s.microtick = 4 ∨ s.microtick = 7 ∨ s.microtick = 10) :
    update_koppa { s with kappa_mode_default := k } t =
      (update_koppa s t).mapState (fun s2 => { s2 with kappa_mode_default := k }) := by
  rw [update_koppa_run_eq, update_koppa_run_eq]
  have heff : effective_kappa_mode s.microtick k =
      effective_kappa_mode s.microtick s.kappa_mode_default := by
    rcases h with h | h | h | h <;> simp [effective_kappa_mode, h]
  split
  · simp [TickResult.mapState]
  · show run_kappa_mode (effective_kappa_mode s.microtick k)
        { s with kappa_mode_default := k } = _
    rw [heff, run_kappa_mode_kd_comm]

/-- The propagation engine never reads the stored default koppa mode. -/
theorem apply_propagation_engine_kd_comm (s : EState) (k : KappaMode) :
    apply_propagation_engine { s with kappa_mode_default := k } =
      { apply_propagation_engine s with kappa_mode_default := k } := by
  simp only [apply_propagation_engine]
  cases hE : s.engine_mode <;> simp_all

/-- The psi transform never reads the stored default koppa mode. -/
theorem psi_transform_kd_comm (s : EState) (k : KappaMode) :
    psi_transform { s with kappa_mode_default := k } =
      (psi_transform s).mapState (fun s2 => { s2 with kappa_mode_default := k }) := by
  simp only [psi_transform]
  repeat' split
  all_goals simp_all [TickResult.mapState]

/-- The emission phase commutes with overwriting the stored default koppa
mode: its koppa update only runs at microticks 1, 4, 7, 10, all of which
positionally override the mode. -/
theorem emission_phase_kd_comm (oracle : Int → Bool) (s : EState) (k : KappaMode) :
    emission_phase oracle { s with kappa_mode_default := k } =
      (emission_phase oracle s).mapState
        (fun s2 => { s2 with kappa_mode_default := k }) := by
  simp only [emission_phase]
  split
  case isTrue hc =>
    cases htrig : is_prime_trigger oracle s
    · have htrig2 : is_prime_trigger oracle { s with kappa_mode_default := k } = false :=
        htrig
      simp only [htrig, htrig2, Bool.false_eq_true, if_false]
      split
      · exact update_koppa_kd_comm s s.rho k hc
      · simp [TickResult.mapState]
    · have htrig2 : is_prime_trigger oracle { s with kappa_mode_default := k } = true :=
        htrig
      simp only [htrig, htrig2, if_true]
      split
      · exact update_koppa_kd_comm { s with rho := 1 } 1 k hc
      · simp [TickResult.mapState]
  case isFalse hc => simp [TickResult.mapState]

/-- The propagation phase commutes with overwriting the stored default
koppa mode. -/
theorem propagation_phase_kd_comm (s : EState) (k : KappaMode) :
    propagation_phase { s with kappa_mode_default := k } =
      (propagation_phase s).mapState
        (fun s2 => { s2 with kappa_mode_default := k }) := by
  simp only [propagation_phase]
  split
  · simp [TickResult.mapState, apply_propagation_engine_kd_comm]
  · simp [TickResult.mapState]

/-- The transformation phase commutes with overwriting the stored default
koppa mode. -/
theorem transformation_phase_kd_comm (s : EState) (k : KappaMode) :
    transformation_phase { s with kappa_mode_default := k } =
      (transformation_phase s).mapState
        (fun s2 => { s2 with kappa_mode_default := k }) := by
  simp only [transformation_phase]
  repeat' split
  all_goals first
    | exact psi_transform_kd_comm s k
    | simp [TickResult.mapState]

/-- Sequencing commutes with a state renaming that both phases commute
with. -/
theorem bind_mapState_comm (r : TickResult) (f g : EState → TickResult)
    (phi : EState → EState) (h : ∀ s, f (phi s) = (g s).mapState phi) :
    TickResult.bind (r.mapState phi) f = (TickResult.bind r g).mapState phi := by
  cases r with
  | ok s => exact h s
  | err e s => rfl

/-- C1: the claim says rational arithmetic is structural with no GCD
simplification at any point, so that 1/2 + 1/2 has numerator
1\*2 + 1\*2 = 4 and denominator 2\*2 = 4 exactly. The part_003 `r_add` does
behave that way, but part_000's `Rational` is `boost::rational`, whose
addition normalizes: there 1/2 + 1/2 is stored as 1/1, not 4/4 — part_000's
own header comment calls this auto-reduction a design flaw that the shadow
numerators compensate for. -/
theorem C1_structural_arithmetic_vs_boost_reduction :
    r_add ⟨1, 2⟩ ⟨1, 2⟩ = (⟨4, 4⟩ : CRat) ∧
    r_mul ⟨2, 4⟩ ⟨3, 6⟩ = (⟨6, 24⟩ : CRat) ∧
    r_div ⟨1, 2⟩ ⟨3, 4⟩ = (⟨4, 6⟩ : CRat) ∧
    badd ⟨1, 2⟩ ⟨1, 2⟩ = (⟨1, 1⟩ : BRat) ∧
    badd ⟨1, 2⟩ ⟨1, 2⟩ ≠ (⟨4, 4⟩ : BRat) ∧
    bmul ⟨1, 2⟩ ⟨2, 3⟩ = (⟨1, 3⟩ : BRat) := by decide

/-- C2: after a part_000 microtick advance, rho is non-zero exactly when the
new microtick is an emission microtick (1, 4, 7, 10) and the injected
oracle accepts the absolute value of the unreduced upsilon shadow numerator
(`is_prime_trigger`); at every non-emission microtick rho is reset to 0 at
the start of the advance and is still 0 at its end, whether the advance
returns or throws. -/
theorem C2_rho_prime_trigger_emission_only (oracle : Int → Bool) (s0 : EState) :
    (process_microtick oracle s0).state.rho =
      if (s0.microtick % 11 + 1 = 1 ∨ s0.microtick % 11 + 1 = 4 ∨
          s0.microtick % 11 + 1 = 7 ∨ s0.microtick % 11 + 1 = 10) ∧
         is_prime_trigger oracle s0 = true then 1 else 0 := by
  have hT : ∀ s : EState, (transformation_phase s).state.rho = s.rho := by
    intro s
    obtain ⟨u, b, h⟩ := transformation_phase_shape s
    rw [h]
  have hP : ∀ s : EState, (propagation_phase s).state.rho = s.rho := by
    intro s
    obtain ⟨u, b, un, bn, h⟩ := propagation_phase_shape s
    rw [h]
  simp only [process_microtick]
  rw [bind_state_proj EState.rho _ _ hT, bind_state_proj EState.rho _ _ hP,
      emission_phase_rho _ _ rfl]
  rfl

/-- C3 counterexample: from a freshly constructed part_000 engine
(microtick 0, step 0), eleven successful microtick advances leave step at
the role index 3, not at the claimed old step + 1 = 1, because part_000
recomputes step as (microtick - 1) / 3 on every advance. -/
theorem C3_step_counterexample :
    (execute_tick p0_is_miller_rabin_prime 11 c3_start).isOk = true ∧
    (execute_tick p0_is_miller_rabin_prime 11 c3_start).state.step = 3 ∧
    (execute_tick p0_is_miller_rabin_prime 11 c3_start).state.step ≠
      c3_start.step + 1 := by decide

/-- C3 amended: every part_000 microtick advance, returning or throwing,
sets microtick to (microtick mod 11) + 1 — so microtick strictly cycles
through 1..11 and wraps from 11 back to 1 — but step is recomputed on every
advance as (new microtick - 1) / 3, a role index cycling within 0..3, and
therefore does not increase by 1 per 11 advances. -/
theorem C3_microtick_cycles_step_role_index (oracle : Int → Bool) (s0 : EState) :
    (process_microtick oracle s0).state.microtick = s0.microtick % 11 + 1 ∧
    1 ≤ (process_microtick oracle s0).state.microtick ∧
    (process_microtick oracle s0).state.microtick ≤ 11 ∧
    (process_microtick oracle s0).state.step = (s0.microtick % 11 + 1 - 1) / 3 := by
  have hT : ∀ s : EState, (transformation_phase s).state.microtick = s.microtick ∧
      (transformation_phase s).state.step = s.step := by
    intro s
    obtain ⟨u, b, h⟩ := transformation_phase_shape s
    rw [h]
    exact ⟨rfl, rfl⟩
  have hP : ∀ s : EState, (propagation_phase s).state.microtick = s.microtick ∧
      (propagation_phase s).state.step = s.step := by
    intro s
    obtain ⟨u, b, un, bn, h⟩ := propagation_phase_shape s
    rw [h]
    exact ⟨rfl, rfl⟩
  have hE : ∀ s : EState, (emission_phase oracle s).state.microtick = s.microtick ∧
      (emission_phase oracle s).state.step = s.step := by
    intro s
    obtain ⟨r, k, h⟩ := emission_phase_shape oracle s
    rw [h]
    exact ⟨rfl, rfl⟩
  have hmt : (process_microtick oracle s0).state.microtick = s0.microtick % 11 + 1 := by
    simp only [process_microtick]
    rw [bind_state_proj EState.microtick _ _ (fun s => (hT s).1),
        bind_state_proj EState.microtick _ _ (fun s => (hP s).1)]
    rw [(hE _).1]
  have hst : (process_microtick oracle s0).state.step =
      (s0.microtick % 11 + 1 - 1) / 3 := by
    simp only [process_microtick]
    rw [bind_state_proj EState.step _ _ (fun s => (hT s).2),
        bind_state_proj EState.step _ _ (fun s => (hP s).2)]
    rw [(hE _).2]
  refine ⟨hmt, ?_, ?_, hst⟩
  · rw [hmt]
    omega
  · rw [hmt]
    have := Nat.mod_lt s0.microtick (show 0 < 11 by omega)
    omega

/-- C4: the real oracle of trts.h follows the claimed contract — false at
the composite 9 (and at the base-2 pseudoprime 341 and the Carmichael
number 561), true at 2, 3, 997 and at negative arguments via the absolute
value — but part_000 links the engine against a function of the same name
`is_miller_rabin_prime` that is hardcoded to return true, a silent
replacement baked into the oracle rather than a selectable configuration:
at 9 it answers true although 9 is not prime. -/
theorem C4_oracle_stub_code_bug :
    p0_is_miller_rabin_prime 9 = true ∧
    is_miller_rabin_prime 9 = false ∧
    ¬ Nat.Prime 9 ∧
    is_miller_rabin_prime 0 = false ∧
    is_miller_rabin_prime 1 = false ∧
    is_miller_rabin_prime (-1) = false ∧
    is_miller_rabin_prime 2 = true ∧
    is_miller_rabin_prime 3 = true ∧
    is_miller_rabin_prime (-3) = true ∧
    is_miller_rabin_prime 341 = false ∧
    is_miller_rabin_prime 561 = false ∧
    is_miller_rabin_prime 997 = true := by decide

/-- C5 counterexample: initializing a freshly constructed part_000 engine
with the default seeds 19/7 and 89/11 leaves step at 0 — initialize never
increments step, contradicting the claimed "step has been incremented by
exactly 1" (the remaining claimed postconditions do hold here). -/
theorem C5_initialize_counterexample :
    (initialize_state c5_pre ⟨19, 7⟩ ⟨89, 11⟩).koppa = (⟨1, 1⟩ : BRat) ∧
    (initialize_state c5_pre ⟨19, 7⟩ ⟨89, 11⟩).microtick = 0 ∧
    (initialize_state c5_pre ⟨19, 7⟩ ⟨89, 11⟩).rho = 0 ∧
    (initialize_state c5_pre ⟨19, 7⟩ ⟨89, 11⟩).upsilon_num_unreduced = 19 ∧
    (initialize_state c5_pre ⟨19, 7⟩ ⟨89, 11⟩).beta_num_unreduced = 89 ∧
    (initialize_state c5_pre ⟨19, 7⟩ ⟨89, 11⟩).step = 0 ∧
    (initialize_state c5_pre ⟨19, 7⟩ ⟨89, 11⟩).step ≠ c5_pre.step + 1 := by decide

/-- C5 amended: part_000's initialize sets upsilon and beta from the seeds,
koppa to 1/1 and the shadow numerators to the seed numerators, and leaves
rho, microtick and step exactly as they were; on a freshly constructed
engine this yields microtick 0, rho 0 and step 0 — step is not
incremented. -/
theorem C5_initialize_amended (s : EState) (u b : BRat)
    (psi : PsiMode) (kap : KappaMode) (eng : EngineType) :
    (initialize_state s u b).upsilon = u ∧
    (initialize_state s u b).beta = b ∧
    (initialize_state s u b).koppa = (⟨1, 1⟩ : BRat) ∧
    (initialize_state s u b).upsilon_num_unreduced = u.num ∧
    (initialize_state s u b).beta_num_unreduced = b.num ∧
    (initialize_state s u b).rho = s.rho ∧
    (initialize_state s u b).microtick = s.microtick ∧
    (initialize_state s u b).step = s.step ∧
    (initialize_state (mkEngine psi kap eng) u b).microtick = 0 ∧
    (initialize_state (mkEngine psi kap eng) u b).rho = 0 ∧
    (initialize_state (mkEngine psi kap eng) u b).step = 0 :=
  ⟨rfl, rfl, rfl, rfl, rfl, rfl, rfl, rfl, rfl, rfl, rfl⟩

/-- C6: with a non-zero trigger, part_000's koppa update is exactly the
mode executor run under the pure effective mode of (microtick, configured
default) — microtick 7 forces Ratio-Feed, 10 forces Dump, 1 and 4 force
Accumulate — and the stored configured mode is never mutated. -/
theorem C6_effective_kappa_mode_pure (s : EState) (t : Nat) (h : t ≠ 0) :
    update_koppa s t =
      run_kappa_mode (effective_kappa_mode s.microtick s.kappa_mode_default) s ∧
    (update_koppa s t).state.kappa_mode_default = s.kappa_mode_default ∧
    (∀ k, effective_kappa_mode 7 k = KappaMode.KAPPA_F) ∧
    (∀ k, effective_kappa_mode 10 k = KappaMode.KAPPA_D) ∧
    (∀ k, effective_kappa_mode 1 k = KappaMode.KAPPA_A) ∧
    (∀ k, effective_kappa_mode 4 k = KappaMode.KAPPA_A) := by
  refine ⟨?_, ?_, fun k => rfl, fun k => rfl, fun k => rfl, fun k => rfl⟩
  · rw [update_koppa_run_eq, if_neg h]
  · obtain ⟨k2, hk⟩ := update_koppa_koppa_only s t
    rw [hk]

/-- C6 witness: at the concrete microtick-7 state the koppa update equals
the run of the effective mode. -/
theorem C6_effective_kappa_mode_pure_witness :
    update_koppa c6_w 1 =
      run_kappa_mode (effective_kappa_mode c6_w.microtick c6_w.kappa_mode_default)
        c6_w :=
  (C6_effective_kappa_mode_pure c6_w 1 (by decide)).1

/-- C7: when the effective koppa mode is Dump, a zero beta numerator makes
part_000's koppa update throw bad_rational (the spec's DivideByZero) with
the whole state — koppa included — unchanged, and a non-zero beta numerator
makes it overwrite koppa with upsilon/beta, discarding the old koppa. -/
theorem C7_dump_divide_by_zero (s : EState) (t : Nat) (h : t ≠ 0)
    (hm : effective_kappa_mode s.microtick s.kappa_mode_default = KappaMode.KAPPA_D) :
    (s.beta.num = 0 → update_koppa s t = .err .bad_rational s) ∧
    (s.beta.num ≠ 0 →
      update_koppa s t = .ok { s with koppa := bdivV s.upsilon s.beta }) := by
  rw [update_koppa_run_eq, if_neg h, hm]
  constructor
  · intro h0
    simp [run_kappa_mode, bdiv, h0]
  · intro h0
    simp [run_kappa_mode, bdiv, h0]

/-- C7 witness: at microtick 10 the Dump update throws and leaves the state
unchanged when beta is 0/1, and overwrites koppa with upsilon/beta when
beta is 89/11. -/
theorem C7_dump_divide_by_zero_witness :
    update_koppa c7_w0 1 = .err .bad_rational c7_w0 ∧
    update_koppa c7_w1 1 = .ok { c7_w1 with koppa := bdivV c7_w1.upsilon c7_w1.beta } :=
  ⟨(C7_dump_divide_by_zero c7_w0 1 (by decide) (by decide)).1 (by decide),
   (C7_dump_divide_by_zero c7_w1 1 (by decide) (by decide)).2 (by decide)⟩

/-- C8 counterexample: on a state with upsilon 2/1, beta 1/1 and koppa 0/1,
part_000's psi transform throws bad_rational only after overwriting upsilon
with koppa/beta = 0/1, a partial mutation: the escaping state has a changed
upsilon and an unchanged beta and koppa, refuting the claim that no failing
call partially mutates upsilon, beta or koppa. -/
theorem C8_partial_mutation_counterexample :
    psi_transform c8_ce = .err .bad_rational { c8_ce with upsilon := (⟨0, 1⟩ : BRat) } ∧
    (psi_transform c8_ce).isOk = false ∧
    (psi_transform c8_ce).state.upsilon ≠ c8_ce.upsilon ∧
    (psi_transform c8_ce).state.beta = c8_ce.beta ∧
    (psi_transform c8_ce).state.koppa = c8_ce.koppa := by decide

/-- C8 amended: failing operations validate only their immediate divisor. A
failing koppa update implies a zero beta numerator and leaves the state
unchanged, except that a Ratio-Feed update on a zero koppa has already reset
koppa to 1/1 before throwing; a failing psi transform implies a zero beta or
koppa numerator, and leaves the state unchanged when beta's numerator is 0,
but when beta's numerator is non-zero (so koppa's is 0) it throws only after
overwriting upsilon with koppa/beta, leaving beta untouched. -/
theorem C8_failure_atomicity_amended (s : EState) (t : Nat) (e : RatError)
    (s1 : EState) :
    (update_koppa s t = .err e s1 →
      s1 = (if effective_kappa_mode s.microtick s.kappa_mode_default = KappaMode.KAPPA_F ∧
               s.koppa = (⟨0, 1⟩ : BRat)
            then { s with koppa := ⟨1, 1⟩ } else s) ∧ s.beta.num = 0) ∧
    (psi_transform s = .err e s1 →
      s1 = (if s.beta.num = 0 then s else { s with upsilon := bdivV s.koppa s.beta }) ∧
      (s.beta.num = 0 ∨ s.koppa.num = 0)) := by
  constructor
  · intro heq
    rw [update_koppa_run_eq] at heq
    by_cases ht : t = 0
    · rw [if_pos ht] at heq
      cases heq
    · rw [if_neg ht] at heq
      by_cases hb : s.beta.num = 0
      · refine ⟨?_, hb⟩
        cases hM : effective_kappa_mode s.microtick s.kappa_mode_default <;>
          rw [hM] at heq <;> by_cases hk0 : s.koppa = (⟨0, 1⟩ : BRat) <;>
          simp_all [run_kappa_mode, bdiv]
        all_goals exact heq.symm
      · exfalso
        cases hM : effective_kappa_mode s.microtick s.kappa_mode_default <;>
          rw [hM] at heq <;> simp_all [run_kappa_mode, bdiv]
  · intro heq
    by_cases hb : s.beta.num = 0
    · simp_all [psi_transform, bdiv]
    · by_cases hk : s.koppa.num = 0
      · simp_all [psi_transform, bdiv]
      · exfalso
        simp_all [psi_transform, bdiv]

/-- C8 amended witness: the Ratio-Feed failure at microtick 7 with zero
koppa and zero beta numerator escapes with koppa already reset to 1/1, and
the psi-transform failure with non-zero beta and zero koppa numerator
escapes with upsilon already overwritten. -/
theorem C8_failure_atomicity_amended_witness :
    (({ c8_w0 with koppa := (⟨1, 1⟩ : BRat) } : EState) =
        (if effective_kappa_mode c8_w0.microtick c8_w0.kappa_mode_default =
              KappaMode.KAPPA_F ∧ c8_w0.koppa = (⟨0, 1⟩ : BRat)
         then { c8_w0 with koppa := ⟨1, 1⟩ } else c8_w0) ∧
      c8_w0.beta.num = 0) ∧
    (({ c8_ce with upsilon := (⟨0, 1⟩ : BRat) } : EState) =
        (if c8_ce.beta.num = 0 then c8_ce
         else { c8_ce with upsilon := bdivV c8_ce.koppa c8_ce.beta }) ∧
      (c8_ce.beta.num = 0 ∨ c8_ce.koppa.num = 0)) :=
  ⟨(C8_failure_atomicity_amended c8_w0 1 .bad_rational
      { c8_w0 with koppa := ⟨1, 1⟩ }).1 (by decide),
   (C8_failure_atomicity_amended c8_ce 0 .bad_rational
      { c8_ce with upsilon := ⟨0, 1⟩ }).2 (by decide)⟩

/-- C9: with the Rotational engine, part_000's propagation swaps upsilon
and beta (touching nothing else, the shadow numerators included), and
applying it twice restores the starting state exactly. -/
theorem C9_rotational_swap_involution (s : EState)
    (h : s.engine_mode = EngineType.ENG_R) :
    apply_propagation_engine s = { s with upsilon := s.beta, beta := s.upsilon } ∧
    apply_propagation_engine (apply_propagation_engine s) = s := by
  obtain ⟨u, b, kp, un, bn, r, mt, st, pm, kd, em⟩ := s
  cases h
  exact ⟨rfl, rfl⟩

/-- C9 witness: the concrete Rotational state with upsilon 19/7 and beta
89/11 swaps and swaps back. -/
theorem C9_rotational_swap_involution_witness :
    apply_propagation_engine c9_w = { c9_w with upsilon := c9_w.beta, beta := c9_w.upsilon } ∧
    apply_propagation_engine (apply_propagation_engine c9_w) = c9_w :=
  C9_rotational_swap_involution c9_w rfl

/-- C10: two part_000 microtick advances from states that differ only in
the configured default koppa mode produce the same state apart from the
carried-over configured mode itself, and fail identically: the koppa update
runs only at emission microticks 1, 4, 7, 10, each of which positionally
overrides the mode, and nothing else reads the stored default. -/
theorem C10_kappa_default_noninterference (oracle : Int → Bool) (s0 : EState)
    (k : KappaMode) :
    process_microtick oracle { s0 with kappa_mode_default := k } =
      (process_microtick oracle s0).mapState
        (fun s2 => { s2 with kappa_mode_default := k }) := by
  simp only [process_microtick]
  rw [emission_phase_kd_comm oracle
        { s0 with microtick := s0.microtick % 11 + 1,
                  step := (s0.microtick % 11 + 1 - 1) / 3, rho := 0 } k,
      bind_mapState_comm _ _ _ _ (fun s2 => propagation_phase_kd_comm s2 k),
      bind_mapState_comm _ _ _ _ (fun s2 => transformation_phase_kd_comm s2 k)]

end TRTS
